import Mathlib

/-!
Verification of the Payment-Gateway repository against its specification.

The delivered file set contains the React client (`client/src/...`) and the
README; the FastAPI backend (`server/app/services/payment_service.py`,
`server/app/routes/payments.py`, ...) described by the README's project
structure is not among the delivered files.  The Payment Lifecycle Engine is
therefore modelled from the spec (each such definition says so in its doc
comment); the client components (`ProtectedRoute`, `StatusBadge`, the sign-in
and sign-up handlers) are embedded from their source files.
-/

namespace PaymentGateway

/-- Payment lifecycle status, spec section 3. -/
inductive Status where
  | CREATED
  | PROCESSING
  | SUCCESS
  | FAILED
  | REFUNDED
deriving DecidableEq, Repr

/-- Failure-reason taxonomy, spec section 4.2. -/
inductive FailureReason where
  | INVALID_AMOUNT
  | INVALID_REQUEST
  | FRAUD_SUSPECTED
  | PROCESSING_ERROR
deriving DecidableEq, Repr

/-- Modelled from the spec: the Event audit record (spec section 3); the
backend model file is not among the delivered sources.  Timestamps and ids
are omitted; events are kept in append order, so the most recent event is
the last element of a payment's event list. -/
structure Event where
  from_status : Status
  to_status : Status
deriving DecidableEq, Repr

/-- Modelled from the spec: the Payment entity (spec section 3); the backend
model file is not among the delivered sources.  The optional metadata and
timestamp fields that never influence transitions are omitted. -/
structure Payment where
  id : Nat
  reference : String
  amount : Int
  currency : String
  status : Status
  failure_reason : Option FailureReason
  fraud_flag : Bool
  retry_count : Nat
  events : List Event
deriving DecidableEq, Repr

/-- Modelled from the spec: process-wide configuration (spec section 6). -/
structure Config where
  fraud_threshold : Int
  failure_rate : ℚ
  max_retries : Nat

/-- The documented defaults: fraud threshold 10000, failure rate 0.2; the
spec fixes max retries only as a small positive number. -/
def defaultConfig : Config :=
  ⟨10000, 1/5, 3⟩

/-- Outcome decision of the Rule Evaluator. -/
inductive Outcome where
  | success
  | failed (reason : FailureReason) (fraud : Bool)
deriving DecidableEq, Repr

/-- Modelled from the spec: the Rule Evaluator (spec section 4.2), a pure
decision function over a payment snapshot and the random draw, rules applied
in fixed priority order, first match wins; the backend service file is not
among the delivered sources. -/
def evaluateRules (cfg : Config) (p : Payment) (draw : ℚ) : Outcome :=
  if p.amount ≤ 0 then .failed .INVALID_AMOUNT false
  else if p.currency = "" ∨ p.reference = "" then .failed .INVALID_REQUEST false
  else if p.amount > cfg.fraud_threshold then .failed .FRAUD_SUSPECTED true
  else if draw < cfg.failure_rate then .failed .PROCESSING_ERROR false
  else .success

/-- Error taxonomy of the engine, spec section 7. -/
inductive EngineError where
  | ValidationError
  | NotFoundError
  | InvalidStateError
  | RetryExhaustedError
deriving DecidableEq, Repr

/-- First payment in the store carrying the given id, mirroring keyed
lookup in the record store. -/
def findPayment (store : List Payment) (id : Nat) : Option Payment :=
  store.find? (fun p => p.id == id)

/-- Update the first payment carrying the given id, mirroring a keyed write
to the record store (ids are assigned uniquely at creation). -/
def updatePayment (store : List Payment) (id : Nat) (f : Payment → Payment) :
    List Payment :=
  match store with
  | [] => []
  | p :: rest =>
      if p.id == id then f p :: rest else p :: updatePayment rest id f

/-- The fresh payment produced by a successful create on the given store. -/
def newPayment (store : List Payment) (amount : Int) (currency reference : String) :
    Payment :=
  ⟨store.length, reference, amount, currency, .CREATED, none, false, 0, []⟩

/-- Per-payment effect of process: enter PROCESSING and record the event. -/
def startProcessing (q : Payment) : Payment :=
  { q with
      status := .PROCESSING,
      events := q.events ++ [⟨q.status, .PROCESSING⟩] }

/-- Per-payment effect of a successful resolution. -/
def markSuccess (q : Payment) : Payment :=
  { q with
      status := .SUCCESS,
      events := q.events ++ [⟨q.status, .SUCCESS⟩] }

/-- Per-payment effect of a failed resolution: record the failure reason,
raise the fraud flag when the fraud rule triggered, record the event. -/
def markFailed (reason : FailureReason) (fraud : Bool) (q : Payment) : Payment :=
  { q with
      status := .FAILED,
      failure_reason := some reason,
      fraud_flag := q.fraud_flag || fraud,
      events := q.events ++ [⟨q.status, .FAILED⟩] }

/-- Per-payment effect of retry: count the retry and re-enter PROCESSING. -/
def retryPayment (q : Payment) : Payment :=
  { q with
      status := .PROCESSING,
      failure_reason := none,
      retry_count := q.retry_count + 1,
      events := q.events ++ [⟨q.status, .PROCESSING⟩] }

/-- Per-payment effect of refund: enter the absorbing REFUNDED state. -/
def markRefunded (q : Payment) : Payment :=
  { q with
      status := .REFUNDED,
      events := q.events ++ [⟨q.status, .REFUNDED⟩] }

/-- Modelled from the spec: the create operation (spec section 4.1); the
backend service file is not among the delivered sources.  Fails with
ValidationError if the amount is not positive, the currency is empty, or the
reference collides with an existing payment (no payment is ever retired);
otherwise appends a fresh payment in status CREATED with no events. -/
def create (store : List Payment) (amount : Int) (currency reference : String) :
    Except EngineError (Payment × List Payment) :=
  if amount ≤ 0 ∨ currency = "" ∨ ∃ p ∈ store, p.reference = reference then
    .error .ValidationError
  else
    .ok (newPayment store amount currency reference,
      store ++ [newPayment store amount currency reference])

/-- Modelled from the spec: the process operation (spec section 4.1); the
backend service file is not among the delivered sources.  Allowed only from
CREATED; transitions to PROCESSING and writes one event. -/
def process (store : List Payment) (id : Nat) :
    Except EngineError (List Payment) :=
  match findPayment store id with
  | none => .error .NotFoundError
  | some p =>
      if p.status = .CREATED then
        .ok (updatePayment store id startProcessing)
      else .error .InvalidStateError

/-- Modelled from the spec: the resolve operation (spec section 4.1); the
backend service file is not among the delivered sources.  Allowed only from
PROCESSING; applies the Rule Evaluator and transitions to SUCCESS or FAILED,
writing one event; on a payment no longer in PROCESSING it is a no-op, not
an error (the idempotent guard). -/
def resolve (cfg : Config) (store : List Payment) (id : Nat) (draw : ℚ) :
    Except EngineError (List Payment) :=
  match findPayment store id with
  | none => .error .NotFoundError
  | some p =>
      if p.status = .PROCESSING then
        match evaluateRules cfg p draw with
        | .success => .ok (updatePayment store id markSuccess)
        | .failed reason fraud =>
            .ok (updatePayment store id (markFailed reason fraud))
      else .ok store

/-- Modelled from the spec: the retry operation (spec section 4.1); the
backend service file is not among the delivered sources.  Allowed only from
FAILED; fails with RetryExhaustedError if the retry count already equals the
configured maximum, otherwise increments it and re-enters PROCESSING. -/
def retry (cfg : Config) (store : List Payment) (id : Nat) :
    Except EngineError (List Payment) :=
  match findPayment store id with
  | none => .error .NotFoundError
  | some p =>
      if p.status = .FAILED then
        if p.retry_count = cfg.max_retries then .error .RetryExhaustedError
        else .ok (updatePayment store id retryPayment)
      else .error .InvalidStateError

/-- Modelled from the spec: the refund operation (spec section 4.1); the
backend service file is not among the delivered sources.  Allowed only from
SUCCESS; transitions to the absorbing REFUNDED state. -/
def refund (store : List Payment) (id : Nat) :
    Except EngineError (List Payment) :=
  match findPayment store id with
  | none => .error .NotFoundError
  | some p =>
      if p.status = .SUCCESS then
        .ok (updatePayment store id markRefunded)
      else .error .InvalidStateError

/-- Point-in-time aggregate returned by GetSummary, spec section 4.4. -/
structure Summary where
  total : Nat
  success : Nat
  failed : Nat
  processing : Nat
  refunded : Nat
  failure_breakdown : FailureReason → Nat

/-- Modelled from the spec: the Summary Aggregator (spec section 4.4); the
backend service file is not among the delivered sources.  Scans all payments
and counts by status; the failure breakdown is computed only over currently
FAILED payments. -/
def summarize (store : List Payment) : Summary :=
  { total := store.length
    success := store.countP (fun p => decide (p.status = .SUCCESS))
    failed := store.countP (fun p => decide (p.status = .FAILED))
    processing := store.countP (fun p => decide (p.status = .PROCESSING))
    refunded := store.countP (fun p => decide (p.status = .REFUNDED))
    failure_breakdown := fun r =>
      store.countP (fun p =>
        decide (p.status = .FAILED ∧ p.failure_reason = some r)) }

/-- Number of payments currently in status CREATED. -/
def createdCount (store : List Payment) : Nat :=
  store.countP (fun p => decide (p.status = .CREATED))

/-- Sum of all failure-breakdown buckets of a summary. -/
def breakdownSum (s : Summary) : Nat :=
  s.failure_breakdown .INVALID_AMOUNT + s.failure_breakdown .INVALID_REQUEST +
    s.failure_breakdown .FRAUD_SUSPECTED + s.failure_breakdown .PROCESSING_ERROR

/-- One engine request, with the random draw of a resolution made explicit
(the spec requires the random source to be injectable). -/
inductive Op where
  | create (amount : Int) (currency reference : String)
  | process (id : Nat)
  | resolve (id : Nat) (draw : ℚ)
  | retry (id : Nat)
  | refund (id : Nat)

/-- Apply one engine request to the store; a rejected request leaves the
store unchanged (typed failures, no partial writes). -/
def applyOp (cfg : Config) (store : List Payment) : Op → List Payment
  | .create a c r =>
      match create store a c r with
      | .ok x => x.2
      | .error _ => store
  | .process id => ((process store id).toOption).getD store
  | .resolve id d => ((resolve cfg store id d).toOption).getD store
  | .retry id => ((retry cfg store id).toOption).getD store
  | .refund id => ((refund store id).toOption).getD store

/-- Run a sequence of engine requests from the empty store. -/
def runOps (cfg : Config) (ops : List Op) : List Payment :=
  ops.foldl (applyOp cfg) []

/-- Stores reachable by some sequence of engine requests from the empty
store. -/
def Reachable (cfg : Config) (store : List Payment) : Prop :=
  ∃ ops : List Op, runOps cfg ops = store

/-- Status recorded by the most recent event of an event list, or CREATED
when there is none. -/
def lastToStatus (events : List Event) : Status :=
  match events.getLast? with
  | none => .CREATED
  | some e => e.to_status

/-- A payment's stored status agrees with its event history. -/
def statusConsistent (p : Payment) : Prop :=
  p.status = lastToStatus p.events

/-- The global store invariant maintained by the engine: every payment's
status agrees with its last event, its retry count is within the configured
bound, and a FAILED payment carries a failure reason. -/
def Inv (cfg : Config) (store : List Payment) : Prop :=
  ∀ p ∈ store,
    statusConsistent p ∧ p.retry_count ≤ cfg.max_retries ∧
      (p.status = .FAILED → p.failure_reason.isSome = true)

/-- A concrete payment snapshot: amount 50000 but no currency; used to
exercise rule priority in the Rule Evaluator. -/
def fraudNoCurrency : Payment :=
  ⟨0, "INV-1", 50000, "", .PROCESSING, none, false, 0, []⟩

/-! ### Client-side components, embedded from the delivered sources -/

/-- What `ProtectedRoute` renders: either its children or a redirect to the
sign-in page. -/
inductive RouteResult where
  | children
  | redirectSignin
deriving DecidableEq, Repr

/-- The browser's localStorage: a partial map from string keys to string
values (`getItem` returns null for an absent key). -/
def LocalStorage : Type :=
  String → Option String

/-- JavaScript truthiness of a `localStorage.getItem` result: null and the
empty string are falsy, every other string is truthy. -/
def jsTruthy : Option String → Bool
  | none => false
  | some s => !(s == "")

/-- From client/src/components/ProtectedRoute.jsx: reads the key "auth" and
renders the redirect when the value is falsy, the children otherwise. -/
def ProtectedRoute (ls : LocalStorage) : RouteResult :=
  if jsTruthy (ls "auth") then .children else .redirectSignin

/-- localStorage.setItem. -/
def setItem (ls : LocalStorage) (k v : String) : LocalStorage :=
  fun q => if q = k then some v else ls q

/-- From client/src/pages/SignIn.jsx, handleLogin success path: stores the
access token under the key "token" (and only there). -/
def handleLogin (ls : LocalStorage) (accessToken : String) : LocalStorage :=
  setItem ls "token" accessToken

/-- From client/src/pages/Signup.jsx, handleSignup success path: stores the
access token under the key "token" (and only there). -/
def handleSignup (ls : LocalStorage) (accessToken : String) : LocalStorage :=
  setItem ls "token" accessToken

/-- A concrete localStorage holding the empty string under "auth". -/
def emptyAuthLS : LocalStorage :=
  fun k => if k = "auth" then some "" else none

/-- From client/src/components/Navbar.jsx (the components file), the
StatusBadge defined there: the visible label of the rendered badge.  Only
SUCCESS, FAILED and PROCESSING are matched; everything else falls through
to the literal label "CREATED". -/
def statusBadgeLabel (status : String) : String :=
  if status = "SUCCESS" then "SUCCESS"
  else if status = "FAILED" then "FAILED"
  else if status = "PROCESSING" then "PROCESSING"
  else "CREATED"

/-- A processing payment with the rule-priority test amount -5. -/
def negativePayment : Payment :=
  ⟨0, "INV-2", -5, "USD", .PROCESSING, none, false, 0, []⟩

/-- A processing payment with amount 50000, above the default fraud
threshold. -/
def bigPayment : Payment :=
  ⟨0, "INV-3", 50000, "USD", .PROCESSING, none, false, 0, []⟩

/-- The payment produced by creating amount 500, currency "USD", reference
"INV-1" on the empty store. -/
def createdPayment : Payment :=
  ⟨0, "INV-1", 500, "USD", .CREATED, none, false, 0, []⟩

/-- The same payment after process: in PROCESSING with one event. -/
def processingPayment : Payment :=
  ⟨0, "INV-1", 500, "USD", .PROCESSING, none, false, 0,
    [⟨.CREATED, .PROCESSING⟩]⟩

/-- A payment already resolved to SUCCESS. -/
def donePayment : Payment :=
  ⟨0, "INV-1", 500, "USD", .SUCCESS, none, false, 0,
    [⟨.CREATED, .PROCESSING⟩, ⟨.PROCESSING, .SUCCESS⟩]⟩

/-- A FAILED payment with no retries used yet. -/
def failedPayment0 : Payment :=
  ⟨0, "INV-1", 500, "USD", .FAILED, some .PROCESSING_ERROR, false, 0,
    [⟨.CREATED, .PROCESSING⟩, ⟨.PROCESSING, .FAILED⟩]⟩

/-- A FAILED payment whose retry count already equals the default maximum. -/
def exhaustedPayment : Payment :=
  ⟨0, "INV-1", 500, "USD", .FAILED, some .PROCESSING_ERROR, false, 3,
    [⟨.CREATED, .PROCESSING⟩, ⟨.PROCESSING, .FAILED⟩]⟩

/-- The store obtained by retrying failedPayment0. -/
def retriedStore : List Payment :=
  [⟨0, "INV-1", 500, "USD", .PROCESSING, none, false, 1,
    [⟨.CREATED, .PROCESSING⟩, ⟨.PROCESSING, .FAILED⟩,
      ⟨.FAILED, .PROCESSING⟩]⟩]

/-- An empty localStorage. -/
def freshLS : LocalStorage :=
  fun _ => none

/-- A localStorage holding only a token, as left behind by the sign-in and
sign-up pages. -/
def tokenLS : LocalStorage :=
  fun k => if k = "token" then some "tok-1" else none

/-! ### Helper lemmas -/

theorem lastToStatus_concat (l : List Event) (e : Event) :
    lastToStatus (l ++ [e]) = e.to_status := by
  simp [lastToStatus, List.getLast?_concat]

theorem findPayment_cons_pos {p : Payment} {id : Nat} (rest : List Payment)
    (h : (p.id == id) = true) : findPayment (p :: rest) id = some p :=
  List.find?_cons_of_pos rest h

theorem findPayment_cons_neg {p : Payment} {id : Nat} (rest : List Payment)
    (h : (p.id == id) = false) :
    findPayment (p :: rest) id = findPayment rest id :=
  List.find?_cons_of_neg rest (by simp [h])

theorem updatePayment_cons_pos {p : Payment} {id : Nat} {f : Payment → Payment}
    (rest : List Payment) (h : (p.id == id) = true) :
    updatePayment (p :: rest) id f = f p :: rest := by
  simp [updatePayment, h]

theorem updatePayment_cons_neg {p : Payment} {id : Nat} {f : Payment → Payment}
    (rest : List Payment) (h : (p.id == id) = false) :
    updatePayment (p :: rest) id f = p :: updatePayment rest id f := by
  simp [updatePayment, h]

theorem mem_updatePayment {store : List Payment} {id : Nat}
    {f : Payment → Payment} {q : Payment} (hq : q ∈ updatePayment store id f) :
    (∃ p, findPayment store id = some p ∧ q = f p) ∨ q ∈ store := by
  induction store with
  | nil => simp [updatePayment] at hq
  | cons p rest ih =>
      cases hbe : (p.id == id) with
      | true =>
          rw [updatePayment_cons_pos rest hbe] at hq
          rcases List.mem_cons.mp hq with h | h
          · exact Or.inl ⟨p, findPayment_cons_pos rest hbe, h⟩
          · exact Or.inr (List.mem_cons_of_mem _ h)
      | false =>
          rw [updatePayment_cons_neg rest hbe] at hq
          rcases List.mem_cons.mp hq with h | h
          · exact Or.inr (h ▸ List.mem_cons_self _ _)
          · rcases ih h with ⟨p', hp', hq'⟩ | h'
            · exact Or.inl ⟨p', (findPayment_cons_neg rest hbe).trans hp', hq'⟩
            · exact Or.inr (List.mem_cons_of_mem _ h')

theorem findPayment_updatePayment {store : List Payment} {id : Nat}
    {f : Payment → Payment} {p : Payment}
    (hfind : findPayment store id = some p) (hid : (f p).id = p.id) :
    findPayment (updatePayment store id f) id = some (f p) := by
  induction store with
  | nil => simp [findPayment] at hfind
  | cons q rest ih =>
      cases hbe : (q.id == id) with
      | true =>
          have hq : q = p := by
            have := (findPayment_cons_pos rest hbe).symm.trans hfind
            exact Option.some_inj.mp this
          subst hq
          have hbe' : ((f q).id == id) = true := by rw [hid]; exact hbe
          rw [updatePayment_cons_pos rest hbe]
          exact findPayment_cons_pos rest hbe'
      | false =>
          have hfind' : findPayment rest id = some p :=
            (findPayment_cons_neg rest hbe).symm.trans hfind
          rw [updatePayment_cons_neg rest hbe,
            findPayment_cons_neg (updatePayment rest id f) hbe]
          exact ih hfind'

theorem mem_store_updatePayment {store : List Payment} {id : Nat}
    {f : Payment → Payment} {p : Payment} (hp : p ∈ store) :
    p ∈ updatePayment store id f ∨
      ((p.id == id) = true ∧ f p ∈ updatePayment store id f) := by
  induction store with
  | nil => simp at hp
  | cons q rest ih =>
      cases hbe : (q.id == id) with
      | true =>
          rw [updatePayment_cons_pos rest hbe]
          rcases List.mem_cons.mp hp with h | h
          · subst h
            exact Or.inr ⟨hbe, List.mem_cons_self _ _⟩
          · exact Or.inl (List.mem_cons_of_mem _ h)
      | false =>
          rw [updatePayment_cons_neg rest hbe]
          rcases List.mem_cons.mp hp with h | h
          · subst h
            exact Or.inl (List.mem_cons_self _ _)
          · rcases ih h with h1 | ⟨hide, h2⟩
            · exact Or.inl (List.mem_cons_of_mem _ h1)
            · exact Or.inr ⟨hide, List.mem_cons_of_mem _ h2⟩

theorem inv_applyOp {cfg : Config} {store : List Payment} (hInv : Inv cfg store)
    (op : Op) : Inv cfg (applyOp cfg store op) := by
  cases op with
  | create a c r =>
      by_cases hc : a ≤ 0 ∨ c = "" ∨ ∃ p ∈ store, p.reference = r
      · simpa [applyOp, create, hc] using hInv
      · simp only [applyOp, create, hc, if_false]
        intro q hq
        rcases List.mem_append.mp hq with h | h
        · exact hInv q h
        · have hq' : q = ⟨store.length, r, a, c, .CREATED, none, false, 0, []⟩ :=
            List.mem_singleton.mp h
          subst hq'
          refine ⟨by simp [statusConsistent, lastToStatus], Nat.zero_le _, ?_⟩
          intro hF; simp at hF
  | process id =>
      cases hfind : findPayment store id with
      | none => simpa [applyOp, process, hfind] using hInv
      | some p =>
          by_cases hst : p.status = .CREATED
          · simp only [applyOp, process, hfind, hst, if_true, Except.toOption,
              Option.getD]
            intro q hq
            rcases mem_updatePayment hq with ⟨p', hfind', rfl⟩ | h
            · have hpp : p' = p := by
                rw [hfind] at hfind'; exact (Option.some_inj.mp hfind').symm
              subst hpp
              obtain ⟨_, h2, _⟩ := hInv p' (List.mem_of_find?_eq_some hfind)
              refine ⟨by simp [statusConsistent, startProcessing, markSuccess, markFailed, retryPayment, markRefunded, lastToStatus_concat], h2, ?_⟩
              intro hF; simp [startProcessing] at hF
            · exact hInv q h
          · simpa [applyOp, process, hfind, hst] using hInv
  | resolve id d =>
      cases hfind : findPayment store id with
      | none => simpa [applyOp, resolve, hfind] using hInv
      | some p =>
          by_cases hst : p.status = .PROCESSING
          · cases hev : evaluateRules cfg p d with
            | success =>
                simp only [applyOp, resolve, hfind, hst, if_true, hev,
                  Except.toOption, Option.getD]
                intro q hq
                rcases mem_updatePayment hq with ⟨p', hfind', rfl⟩ | h
                · have hpp : p' = p := by
                    rw [hfind] at hfind'; exact (Option.some_inj.mp hfind').symm
                  subst hpp
                  obtain ⟨_, h2, _⟩ := hInv p' (List.mem_of_find?_eq_some hfind)
                  refine ⟨by simp [statusConsistent, startProcessing, markSuccess, markFailed, retryPayment, markRefunded, lastToStatus_concat], h2, ?_⟩
                  intro hF; simp [markSuccess] at hF
                · exact hInv q h
            | failed reason fraud =>
                simp only [applyOp, resolve, hfind, hst, if_true, hev,
                  Except.toOption, Option.getD]
                intro q hq
                rcases mem_updatePayment hq with ⟨p', hfind', rfl⟩ | h
                · have hpp : p' = p := by
                    rw [hfind] at hfind'; exact (Option.some_inj.mp hfind').symm
                  subst hpp
                  obtain ⟨_, h2, _⟩ := hInv p' (List.mem_of_find?_eq_some hfind)
                  exact ⟨by simp [statusConsistent, startProcessing, markSuccess, markFailed, retryPayment, markRefunded, lastToStatus_concat], h2,
                    fun _ => rfl⟩
                · exact hInv q h
          · simpa [applyOp, resolve, hfind, hst] using hInv
  | retry id =>
      cases hfind : findPayment store id with
      | none => simpa [applyOp, retry, hfind] using hInv
      | some p =>
          by_cases hst : p.status = .FAILED
          · by_cases hcap : p.retry_count = cfg.max_retries
            · simpa [applyOp, retry, hfind, hst, hcap] using hInv
            · simp only [applyOp, retry, hfind, hst, if_true, hcap, if_false,
                Except.toOption, Option.getD]
              intro q hq
              rcases mem_updatePayment hq with ⟨p', hfind', rfl⟩ | h
              · have hpp : p' = p := by
                  rw [hfind] at hfind'; exact (Option.some_inj.mp hfind').symm
                subst hpp
                obtain ⟨_, h2, _⟩ := hInv p' (List.mem_of_find?_eq_some hfind)
                refine ⟨by simp [statusConsistent, startProcessing, markSuccess, markFailed, retryPayment, markRefunded, lastToStatus_concat], ?_, ?_⟩
                · simp only [retryPayment]
                  omega
                · intro hF; simp [retryPayment] at hF
              · exact hInv q h
          · simpa [applyOp, retry, hfind, hst] using hInv
  | refund id =>
      cases hfind : findPayment store id with
      | none => simpa [applyOp, refund, hfind] using hInv
      | some p =>
          by_cases hst : p.status = .SUCCESS
          · simp only [applyOp, refund, hfind, hst, if_true,
              Except.toOption, Option.getD]
            intro q hq
            rcases mem_updatePayment hq with ⟨p', hfind', rfl⟩ | h
            · have hpp : p' = p := by
                rw [hfind] at hfind'; exact (Option.some_inj.mp hfind').symm
              subst hpp
              obtain ⟨_, h2, _⟩ := hInv p' (List.mem_of_find?_eq_some hfind)
              refine ⟨by simp [statusConsistent, startProcessing, markSuccess, markFailed, retryPayment, markRefunded, lastToStatus_concat], h2, ?_⟩
              intro hF; simp [markRefunded] at hF
            · exact hInv q h
          · simpa [applyOp, refund, hfind, hst] using hInv

theorem inv_runOps (cfg : Config) (ops : List Op) : Inv cfg (runOps cfg ops) := by
  suffices h : ∀ s, Inv cfg s → Inv cfg (List.foldl (applyOp cfg) s ops) by
    exact h [] (by intro p hp; simp at hp)
  induction ops with
  | nil => intro s hs; exact hs
  | cons op rest ih => intro s hs; exact ih _ (inv_applyOp hs op)

theorem inv_reachable {cfg : Config} {store : List Payment}
    (h : Reachable cfg store) : Inv cfg store := by
  obtain ⟨ops, rfl⟩ := h
  exact inv_runOps cfg ops

theorem total_eq_counts (store : List Payment) :
    (summarize store).total =
      (summarize store).success + (summarize store).failed +
        (summarize store).processing + (summarize store).refunded +
        createdCount store := by
  induction store with
  | nil => rfl
  | cons p rest ih =>
      simp only [summarize, createdCount, List.length_cons,
        List.countP_cons] at ih ⊢
      cases hst : p.status <;> simp [hst] <;> omega

theorem breakdown_sum_eq (store : List Payment)
    (h : ∀ p ∈ store, p.status = .FAILED → p.failure_reason.isSome = true) :
    breakdownSum (summarize store) = (summarize store).failed := by
  induction store with
  | nil => rfl
  | cons p rest ih =>
      have hrest := ih (fun q hq => h q (List.mem_cons_of_mem _ hq))
      by_cases hst : p.status = .FAILED
      · obtain ⟨r, hr⟩ :=
          Option.isSome_iff_exists.mp (h p (List.mem_cons_self _ _) hst)
        cases r <;>
          simp only [breakdownSum, summarize, List.countP_cons, hst, hr]
            at hrest ⊢ <;>
          simp_all <;> omega
      · simp only [breakdownSum, summarize, List.countP_cons, hst]
          at hrest ⊢
        simp_all

theorem monotone_updatePayment {store : List Payment} {id : Nat}
    {f : Payment → Payment} (hid : ∀ q, (f q).id = q.id)
    (hrc : ∀ q, q.retry_count ≤ (f q).retry_count)
    {p : Payment} (hp : p ∈ store) :
    ∃ q ∈ updatePayment store id f,
      q.id = p.id ∧ p.retry_count ≤ q.retry_count := by
  rcases @mem_store_updatePayment store id f p hp with h | ⟨_, h⟩
  · exact ⟨p, h, rfl, le_refl _⟩
  · exact ⟨f p, h, hid p, hrc p⟩

theorem applyOp_shape (cfg : Config) (store : List Payment) (op : Op) :
    applyOp cfg store op = store ∨
      (∃ x, applyOp cfg store op = store ++ [x]) ∨
      (∃ id f, applyOp cfg store op = updatePayment store id f ∧
        (∀ q, (f q).id = q.id) ∧ (∀ q, q.retry_count ≤ (f q).retry_count)) := by
  cases op with
  | create a c r =>
      by_cases hc : a ≤ 0 ∨ c = "" ∨ ∃ p ∈ store, p.reference = r
      · left; simp [applyOp, create, hc]
      · right; left
        exact ⟨newPayment store a c r, by simp [applyOp, create, hc]⟩
  | process id =>
      cases hfind : findPayment store id with
      | none => left; simp [applyOp, process, hfind, Except.toOption]
      | some p =>
          by_cases hst : p.status = .CREATED
          · right; right
            refine ⟨id, startProcessing,
              by simp [applyOp, process, hfind, hst, Except.toOption],
              fun q => rfl, fun q => le_refl _⟩
          · left; simp [applyOp, process, hfind, hst, Except.toOption]
  | resolve id d =>
      cases hfind : findPayment store id with
      | none => left; simp [applyOp, resolve, hfind, Except.toOption]
      | some p =>
          by_cases hst : p.status = .PROCESSING
          · cases hev : evaluateRules cfg p d with
            | success =>
                right; right
                refine ⟨id, markSuccess,
                  by simp [applyOp, resolve, hfind, hst, hev, Except.toOption],
                  fun q => rfl, fun q => le_refl _⟩
            | failed reason fraud =>
                right; right
                refine ⟨id, markFailed reason fraud,
                  by simp [applyOp, resolve, hfind, hst, hev, Except.toOption],
                  fun q => rfl, fun q => le_refl _⟩
          · left; simp [applyOp, resolve, hfind, hst, Except.toOption]
  | retry id =>
      cases hfind : findPayment store id with
      | none => left; simp [applyOp, retry, hfind, Except.toOption]
      | some p =>
          by_cases hst : p.status = .FAILED
          · by_cases hcap : p.retry_count = cfg.max_retries
            · left; simp [applyOp, retry, hfind, hst, hcap, Except.toOption]
            · right; right
              refine ⟨id, retryPayment,
                by simp [applyOp, retry, hfind, hst, hcap, Except.toOption],
                fun q => rfl, fun q => Nat.le_succ _⟩
          · left; simp [applyOp, retry, hfind, hst, Except.toOption]
  | refund id =>
      cases hfind : findPayment store id with
      | none => left; simp [applyOp, refund, hfind, Except.toOption]
      | some p =>
          by_cases hst : p.status = .SUCCESS
          · right; right
            refine ⟨id, markRefunded,
              by simp [applyOp, refund, hfind, hst, Except.toOption],
              fun q => rfl, fun q => le_refl _⟩
          · left; simp [applyOp, refund, hfind, hst, Except.toOption]

/-! ### Claim theorems -/

/-- C1 counterexample: a PROCESSING payment with amount 50000 under the
default fraud threshold 10000 but with an empty currency resolves to FAILED
with the higher-priority reason INVALID_REQUEST, not FRAUD_SUSPECTED, and
its fraud flag stays false — so the claim as stated fails. -/
theorem c1_rule_priority_cex :
    fraudNoCurrency.amount = 50000 ∧ defaultConfig.fraud_threshold = 10000 ∧
      fraudNoCurrency.status = .PROCESSING ∧
      resolve defaultConfig [fraudNoCurrency] 0 0 =
        .ok [⟨0, "INV-1", 50000, "", .FAILED, some .INVALID_REQUEST, false, 0,
          [⟨.PROCESSING, .FAILED⟩]⟩] :=
  ⟨rfl, rfl, rfl, rfl⟩

/-- C1 (amended): deterministic rules are applied in fixed priority ahead of
the random rule: a PROCESSING payment with amount -5 always resolves to
FAILED with INVALID_AMOUNT, and one with amount 50000 under fraud threshold
10000 always resolves to FAILED with FRAUD_SUSPECTED and a raised fraud
flag, regardless of the draw, provided its currency and reference are
present (otherwise the higher-priority missing-fields rule fires). -/
theorem c1_rule_priority (cfg : Config) (store : List Payment) (id : Nat)
    (draw : ℚ) (p : Payment) (hfind : findPayment store id = some p)
    (hst : p.status = .PROCESSING) :
    (p.amount = -5 →
      ∃ s' p', resolve cfg store id draw = .ok s' ∧
        findPayment s' id = some p' ∧ p'.status = .FAILED ∧
        p'.failure_reason = some .INVALID_AMOUNT) ∧
    (p.amount = 50000 → cfg.fraud_threshold = 10000 → p.currency ≠ "" →
      p.reference ≠ "" →
      ∃ s' p', resolve cfg store id draw = .ok s' ∧
        findPayment s' id = some p' ∧ p'.status = .FAILED ∧
        p'.failure_reason = some .FRAUD_SUSPECTED ∧ p'.fraud_flag = true) := by
  constructor
  · intro ha
    have hev : evaluateRules cfg p draw = .failed .INVALID_AMOUNT false := by
      have hle : p.amount ≤ 0 := by omega
      simp [evaluateRules, hle]
    exact ⟨updatePayment store id (markFailed .INVALID_AMOUNT false),
      markFailed .INVALID_AMOUNT false p,
      by simp [resolve, hfind, hst, hev],
      findPayment_updatePayment hfind rfl, rfl, rfl⟩
  · intro ha hth hc hr
    have hev : evaluateRules cfg p draw = .failed .FRAUD_SUSPECTED true := by
      have hle : ¬ p.amount ≤ 0 := by omega
      have hcr : ¬ (p.currency = "" ∨ p.reference = "") := by tauto
      have hgt : p.amount > cfg.fraud_threshold := by omega
      simp [evaluateRules, hle, hcr, hgt]
    exact ⟨updatePayment store id (markFailed .FRAUD_SUSPECTED true),
      markFailed .FRAUD_SUSPECTED true p,
      by simp [resolve, hfind, hst, hev],
      findPayment_updatePayment hfind rfl, rfl, rfl, by simp [markFailed]⟩

/-- C1 witness: the amended theorem applied at amount -5 and at amount 50000
with the default configuration and the draw 1/2. -/
theorem c1_rule_priority_witness :
    negativePayment.amount = -5 ∧
      (∃ s' p', resolve defaultConfig [negativePayment] 0 (1/2) = .ok s' ∧
        findPayment s' 0 = some p' ∧ p'.status = .FAILED ∧
        p'.failure_reason = some .INVALID_AMOUNT) ∧
      bigPayment.amount = 50000 ∧
      (∃ s' p', resolve defaultConfig [bigPayment] 0 (1/2) = .ok s' ∧
        findPayment s' 0 = some p' ∧ p'.status = .FAILED ∧
        p'.failure_reason = some .FRAUD_SUSPECTED ∧ p'.fraud_flag = true) := by
  have h1 := c1_rule_priority defaultConfig [negativePayment] 0 (1/2)
    negativePayment (by decide) (by decide)
  have h2 := c1_rule_priority defaultConfig [bigPayment] 0 (1/2)
    bigPayment (by decide) (by decide)
  exact ⟨rfl, h1.1 rfl, rfl, h2.2 rfl rfl (by decide) (by decide)⟩

/-- C2: when no deterministic rule matches, the Rule Evaluator decides
FAILED with PROCESSING_ERROR exactly when the draw is below the failure
rate, and SUCCESS otherwise; the default failure rate is 0.2. -/
theorem c2_random_failure (cfg : Config) (p : Payment) (draw : ℚ)
    (h1 : 0 < p.amount) (h2 : p.currency ≠ "") (h3 : p.reference ≠ "")
    (h4 : p.amount ≤ cfg.fraud_threshold) :
    (evaluateRules cfg p draw = .failed .PROCESSING_ERROR false ↔
      draw < cfg.failure_rate) ∧
    (¬ draw < cfg.failure_rate → evaluateRules cfg p draw = .success) ∧
    defaultConfig.failure_rate = 1/5 := by
  have ha : ¬ p.amount ≤ 0 := by omega
  have hcr : ¬ (p.currency = "" ∨ p.reference = "") := by tauto
  have hf : ¬ p.amount > cfg.fraud_threshold := by omega
  refine ⟨?_, ?_, rfl⟩
  · constructor
    · intro h
      by_contra hd
      simp [evaluateRules, ha, hcr, hf, hd] at h
    · intro hd
      simp [evaluateRules, ha, hcr, hf, hd]
  · intro hd
    simp [evaluateRules, ha, hcr, hf, hd]

/-- C2 witness: the theorem applied to a valid payment of amount 500 with
the default configuration, at draws on both sides of 0.2. -/
theorem c2_random_failure_witness :
    (0:ℤ) < processingPayment.amount ∧
      (1:ℚ)/10 < defaultConfig.failure_rate ∧
      evaluateRules defaultConfig processingPayment (1/10) =
        .failed .PROCESSING_ERROR false ∧
      ¬ (1:ℚ)/2 < defaultConfig.failure_rate ∧
      evaluateRules defaultConfig processingPayment (1/2) = .success := by
  have hlo := c2_random_failure defaultConfig processingPayment (1/10)
    (by decide) (by decide) (by decide) (by decide)
  have hhi := c2_random_failure defaultConfig processingPayment (1/2)
    (by decide) (by decide) (by decide) (by decide)
  exact ⟨by decide, by norm_num [defaultConfig], hlo.1.mpr (by norm_num [defaultConfig]),
    by norm_num [defaultConfig], hhi.2.1 (by norm_num [defaultConfig])⟩

/-- C3: a payment in PROCESSING is resolved to exactly one of SUCCESS or
FAILED, with a failure reason recorded in the FAILED case, and resolving a
payment no longer in PROCESSING is a no-op, not an error. -/
theorem c3_resolve_outcomes (cfg : Config) (store : List Payment) (id : Nat)
    (draw : ℚ) (p : Payment) (hfind : findPayment store id = some p) :
    (p.status = .PROCESSING →
      ∃ s' p', resolve cfg store id draw = .ok s' ∧
        findPayment s' id = some p' ∧
        (p'.status = .SUCCESS ∨
          (p'.status = .FAILED ∧ p'.failure_reason.isSome = true))) ∧
    (p.status ≠ .PROCESSING → resolve cfg store id draw = .ok store) := by
  constructor
  · intro hst
    cases hev : evaluateRules cfg p draw with
    | success =>
        exact ⟨updatePayment store id markSuccess, markSuccess p,
          by simp [resolve, hfind, hst, hev],
          findPayment_updatePayment hfind rfl, Or.inl rfl⟩
    | failed reason fraud =>
        exact ⟨updatePayment store id (markFailed reason fraud),
          markFailed reason fraud p,
          by simp [resolve, hfind, hst, hev],
          findPayment_updatePayment hfind rfl, Or.inr ⟨rfl, rfl⟩⟩
  · intro hst
    simp [resolve, hfind, hst]

/-- C3 witness: the theorem applied to a PROCESSING payment and to an
already resolved SUCCESS payment. -/
theorem c3_resolve_outcomes_witness :
    processingPayment.status = .PROCESSING ∧
      (∃ s' p', resolve defaultConfig [processingPayment] 0 (1/2) = .ok s' ∧
        findPayment s' 0 = some p' ∧
        (p'.status = .SUCCESS ∨
          (p'.status = .FAILED ∧ p'.failure_reason.isSome = true))) ∧
      donePayment.status ≠ .PROCESSING ∧
      resolve defaultConfig [donePayment] 0 (1/2) = .ok [donePayment] := by
  have h1 := c3_resolve_outcomes defaultConfig [processingPayment] 0 (1/2)
    processingPayment (by decide)
  have h2 := c3_resolve_outcomes defaultConfig [donePayment] 0 (1/2)
    donePayment (by decide)
  exact ⟨rfl, h1.1 rfl, by decide, h2.2 (by decide)⟩

/-- C4: create rejects with ValidationError exactly the requests with a
non-positive amount, an empty currency, or a reference colliding with an
existing payment — producing no payment — and otherwise appends a fresh
payment in status CREATED. -/
theorem c4_create_validation (store : List Payment) (a : Int) (c r : String) :
    ((a ≤ 0 ∨ c = "" ∨ ∃ p ∈ store, p.reference = r) →
      create store a c r = .error .ValidationError) ∧
    (¬ (a ≤ 0 ∨ c = "" ∨ ∃ p ∈ store, p.reference = r) →
      create store a c r =
        .ok (newPayment store a c r, store ++ [newPayment store a c r]) ∧
      (newPayment store a c r).status = .CREATED) := by
  constructor
  · intro h
    simp [create, h]
  · intro h
    exact ⟨by simp [create, h], rfl⟩

/-- C4 witness: the theorem applied to a rejected request (amount -5) and
an accepted one (amount 500) on the empty store. -/
theorem c4_create_validation_witness :
    create [] (-5) "USD" "INV-1" = .error .ValidationError ∧
      create [] 500 "USD" "INV-1" = .ok (createdPayment, [createdPayment]) ∧
      createdPayment.status = .CREATED := by
  have h1 := (c4_create_validation [] (-5) "USD" "INV-1").1 (by decide)
  have h2 := (c4_create_validation [] 500 "USD" "INV-1").2 (by decide)
  exact ⟨h1, h2.1, h2.2⟩

/-- C5: process, retry and refund invoked on a payment whose status is not
the operation's required source status (CREATED, FAILED, SUCCESS
respectively) fail with InvalidStateError and leave the store — hence every
field and the event history of every payment — unchanged. -/
theorem c5_invalid_state (cfg : Config) (store : List Payment) (id : Nat)
    (p : Payment) (hfind : findPayment store id = some p) :
    (p.status ≠ .CREATED → process store id = .error .InvalidStateError ∧
      applyOp cfg store (.process id) = store) ∧
    (p.status ≠ .FAILED → retry cfg store id = .error .InvalidStateError ∧
      applyOp cfg store (.retry id) = store) ∧
    (p.status ≠ .SUCCESS → refund store id = .error .InvalidStateError ∧
      applyOp cfg store (.refund id) = store) := by
  refine ⟨?_, ?_, ?_⟩
  · intro h
    constructor
    · simp [process, hfind, h]
    · simp [applyOp, process, hfind, h, Except.toOption]
  · intro h
    constructor
    · simp [retry, hfind, h]
    · simp [applyOp, retry, hfind, h, Except.toOption]
  · intro h
    constructor
    · simp [refund, hfind, h]
    · simp [applyOp, refund, hfind, h, Except.toOption]

/-- C5 witness: the theorem applied to a PROCESSING payment, for which all
three operations are out of state. -/
theorem c5_invalid_state_witness :
    processingPayment.status ≠ .CREATED ∧
      process [processingPayment] 0 = .error .InvalidStateError ∧
      retry defaultConfig [processingPayment] 0 = .error .InvalidStateError ∧
      refund [processingPayment] 0 = .error .InvalidStateError ∧
      applyOp defaultConfig [processingPayment] (.process 0) =
        [processingPayment] := by
  have h := c5_invalid_state defaultConfig [processingPayment] 0
    processingPayment (by decide)
  exact ⟨by decide, (h.1 (by decide)).1, (h.2.1 (by decide)).1,
    (h.2.2 (by decide)).1, (h.1 (by decide)).2⟩

/-- C6: the retry cap: in every reachable store no retry count exceeds the
configured maximum; a FAILED payment whose retry count equals the maximum is
rejected with RetryExhaustedError; a successful retry increments the count
by exactly one; and no operation ever decreases a payment's retry count. -/
theorem c6_retry_cap (cfg : Config) :
    (∀ store, Reachable cfg store →
      ∀ p ∈ store, p.retry_count ≤ cfg.max_retries) ∧
    (∀ store id p, findPayment store id = some p → p.status = .FAILED →
      p.retry_count = cfg.max_retries →
      retry cfg store id = .error .RetryExhaustedError) ∧
    (∀ store id p s', findPayment store id = some p →
      retry cfg store id = .ok s' →
      ∃ p', findPayment s' id = some p' ∧
        p'.retry_count = p.retry_count + 1) ∧
    (∀ store op p, p ∈ store → ∃ q ∈ applyOp cfg store op,
      q.id = p.id ∧ p.retry_count ≤ q.retry_count) := by
  refine ⟨?_, ?_, ?_, ?_⟩
  · intro store hreach p hp
    exact ((inv_reachable hreach) p hp).2.1
  · intro store id p hfind hst hcap
    simp [retry, hfind, hst, hcap]
  · intro store id p s' hfind hok
    by_cases hst : p.status = .FAILED
    · by_cases hcap : p.retry_count = cfg.max_retries
      · simp [retry, hfind, hst, hcap] at hok
      · simp [retry, hfind, hst, hcap] at hok
        subst hok
        exact ⟨retryPayment p, findPayment_updatePayment hfind rfl, rfl⟩
    · simp [retry, hfind, hst] at hok
  · intro store op p hp
    rcases applyOp_shape cfg store op with h | ⟨x, h⟩ | ⟨i, f, h, hid, hrc⟩
    · rw [h]
      exact ⟨p, hp, rfl, le_refl _⟩
    · rw [h]
      exact ⟨p, List.mem_append_left _ hp, rfl, le_refl _⟩
    · rw [h]
      exact monotone_updatePayment hid hrc hp

/-- C6 witness: the theorem applied to a reachable one-payment store, to a
FAILED payment at the cap, to a fresh FAILED payment being retried, and to
the retry operation for monotonicity. -/
theorem c6_retry_cap_witness :
    Reachable defaultConfig [createdPayment] ∧
      createdPayment.retry_count ≤ defaultConfig.max_retries ∧
      exhaustedPayment.retry_count = defaultConfig.max_retries ∧
      retry defaultConfig [exhaustedPayment] 0 = .error .RetryExhaustedError ∧
      retry defaultConfig [failedPayment0] 0 = .ok retriedStore ∧
      (∃ p', findPayment retriedStore 0 = some p' ∧
        p'.retry_count = failedPayment0.retry_count + 1) ∧
      (∃ q ∈ applyOp defaultConfig [failedPayment0] (.retry 0),
        q.id = failedPayment0.id ∧
        failedPayment0.retry_count ≤ q.retry_count) := by
  have h := c6_retry_cap defaultConfig
  have hreach : Reachable defaultConfig [createdPayment] :=
    ⟨[.create 500 "USD" "INV-1"], by decide⟩
  have hok : retry defaultConfig [failedPayment0] 0 = .ok retriedStore := rfl
  exact ⟨hreach, h.1 [createdPayment] hreach createdPayment (by decide),
    by decide,
    h.2.1 [exhaustedPayment] 0 exhaustedPayment (by decide) (by decide)
      (by decide),
    hok,
    h.2.2.1 [failedPayment0] 0 failedPayment0 retriedStore (by decide) hok,
    h.2.2.2 [failedPayment0] (.retry 0) failedPayment0 (by decide)⟩

/-- C7: in every reachable store the summary satisfies total = success +
failed + processing + refunded + count of CREATED payments, and the
failure-breakdown values sum to the number of currently FAILED payments. -/
theorem c7_summary_identities (cfg : Config) (store : List Payment)
    (h : Reachable cfg store) :
    (summarize store).total =
      (summarize store).success + (summarize store).failed +
        (summarize store).processing + (summarize store).refunded +
        createdCount store ∧
    breakdownSum (summarize store) = (summarize store).failed := by
  refine ⟨total_eq_counts store, breakdown_sum_eq store ?_⟩
  intro p hp hF
  exact ((inv_reachable h) p hp).2.2 hF

/-- C7 witness: the theorem applied to the reachable store holding one
freshly created payment. -/
theorem c7_summary_identities_witness :
    Reachable defaultConfig [createdPayment] ∧
      (summarize [createdPayment]).total =
        (summarize [createdPayment]).success +
          (summarize [createdPayment]).failed +
          (summarize [createdPayment]).processing +
          (summarize [createdPayment]).refunded +
          createdCount [createdPayment] ∧
      breakdownSum (summarize [createdPayment]) =
        (summarize [createdPayment]).failed := by
  have hreach : Reachable defaultConfig [createdPayment] :=
    ⟨[.create 500 "USD" "INV-1"], by decide⟩
  have h := c7_summary_identities defaultConfig [createdPayment] hreach
  exact ⟨hreach, h.1, h.2⟩

/-- C8: after every sequence of engine operations, each payment's status
equals the to_status of its most recent event, or CREATED when it has no
events. -/
theorem c8_status_matches_events (cfg : Config) (store : List Payment)
    (h : Reachable cfg store) :
    ∀ p ∈ store, p.status = lastToStatus p.events := by
  intro p hp
  exact ((inv_reachable h) p hp).1

/-- C8 witness: the theorem applied to the reachable store holding one
created-then-processed payment. -/
theorem c8_status_matches_events_witness :
    Reachable defaultConfig [processingPayment] ∧
      processingPayment.status = lastToStatus processingPayment.events := by
  have hreach : Reachable defaultConfig [processingPayment] :=
    ⟨[.create 500 "USD" "INV-1", .process 0], by decide⟩
  exact ⟨hreach, c8_status_matches_events defaultConfig [processingPayment]
    hreach processingPayment (by decide)⟩

/-- C9 counterexample: a localStorage holding the empty string under "auth"
holds a non-null value there, yet ProtectedRoute redirects to the sign-in
page, because the JavaScript truthiness check treats the empty string like
null — so the stated "non-null" criterion is not exact. -/
theorem c9_auth_gate_cex :
    emptyAuthLS "auth" = some "" ∧
      ProtectedRoute emptyAuthLS = .redirectSignin := by
  decide

/-- C9 (amended): ProtectedRoute renders its children iff localStorage
holds a non-null, non-empty value under "auth"; its outcome is identical
across two runs differing only under "token"; and since the sign-in and
sign-up pages store the session only under "token", a session with no
"auth" value is still redirected to the sign-in page after authenticating
through them. -/
theorem c9_auth_gate (ls ls' : LocalStorage) (tok : String)
    (hdiff : ∀ k, k ≠ "token" → ls k = ls' k) :
    (ProtectedRoute ls = .children ↔ ∃ s, ls "auth" = some s ∧ s ≠ "") ∧
    ProtectedRoute ls = ProtectedRoute ls' ∧
    (ls "auth" = none →
      ProtectedRoute (handleLogin ls tok) = .redirectSignin ∧
      ProtectedRoute (handleSignup ls tok) = .redirectSignin) := by
  have hauth : ls "auth" = ls' "auth" := hdiff "auth" (by decide)
  refine ⟨?_, ?_, ?_⟩
  · cases h : ls "auth" with
    | none => simp [ProtectedRoute, jsTruthy, h]
    | some s =>
        by_cases hs : s = ""
        · subst hs
          simp [ProtectedRoute, jsTruthy, h]
        · simp [ProtectedRoute, jsTruthy, h, hs]
  · simp [ProtectedRoute, hauth]
  · intro hfresh
    have hl : handleLogin ls tok "auth" = none := by
      simp [handleLogin, setItem, hfresh]
    have hs : handleSignup ls tok "auth" = none := by
      simp [handleSignup, setItem, hfresh]
    exact ⟨by simp [ProtectedRoute, jsTruthy, hl],
      by simp [ProtectedRoute, jsTruthy, hs]⟩

/-- C9 witness: the amended theorem applied to the empty localStorage and
the localStorage left behind by a sign-in. -/
theorem c9_auth_gate_witness :
    freshLS "auth" = none ∧
      ProtectedRoute freshLS = ProtectedRoute tokenLS ∧
      ProtectedRoute (handleLogin freshLS "tok-1") = .redirectSignin ∧
      ProtectedRoute (handleSignup freshLS "tok-1") = .redirectSignin := by
  have hdiff : ∀ k, k ≠ "token" → freshLS k = tokenLS k := by
    intro k hk
    simp [freshLS, tokenLS, hk]
  have h := c9_auth_gate freshLS tokenLS "tok-1" hdiff
  exact ⟨rfl, h.2.1, (h.2.2 rfl).1, (h.2.2 rfl).2⟩

/-- C10: the StatusBadge of the components file labels every status outside
SUCCESS, FAILED and PROCESSING — REFUNDED in particular — with the literal
text CREATED rather than the actual status. -/
theorem c10_status_badge_fallback (s : String) (h1 : s ≠ "SUCCESS")
    (h2 : s ≠ "FAILED") (h3 : s ≠ "PROCESSING") :
    statusBadgeLabel s = "CREATED" ∧
      statusBadgeLabel "REFUNDED" = "CREATED" := by
  refine ⟨by simp [statusBadgeLabel, h1, h2, h3], by decide⟩

/-- C10 witness: the theorem applied at the status REFUNDED. -/
theorem c10_status_badge_fallback_witness :
    ("REFUNDED" : String) ≠ "SUCCESS" ∧
      statusBadgeLabel "REFUNDED" = "CREATED" :=
  ⟨by decide, (c10_status_badge_fallback "REFUNDED" (by decide) (by decide)
    (by decide)).1⟩

end PaymentGateway
